import Mathlib

/- Verification development for the quantized 2-D convolution module
   (torch/nn/quantized/modules/conv.py).  Tensors are embedded shallowly:
   a quantized tensor is a shape together with a total function from index
   lists to integer values, plus its affine quantization parameters; real
   (float) tensors use rational values.  The compute backend
   (conv_prepack / conv_unpack / conv2d, provided by FBGEMM in the source)
   is external to the repository and is modelled as an abstract structure
   over an opaque packed-weight type. -/

namespace QConv

/-- Quantized storage dtypes used by the module (torch.qint8 / torch.quint8 /
torch.qint32). -/
inductive DType
  | qint8
  | quint8
  | qint32
deriving DecidableEq

/-- Smallest representable value of a quantized dtype. -/
def DType.qmin : DType → ℤ
  | .qint8 => -128
  | .quint8 => 0
  | .qint32 => -2147483648

/-- Largest representable value of a quantized dtype. -/
def DType.qmax : DType → ℤ
  | .qint8 => 127
  | .quint8 => 255
  | .qint32 => 2147483647

/-- A quantized tensor: integer data indexed by index lists, a shape, and the
affine quantization parameters (scale, zero_point) plus storage dtype. -/
structure QTensor where
  shape : List Nat
  data : List Nat → ℤ
  scale : ℚ
  zero_point : ℤ
  dtype : DType

/-- A 1-D quantized tensor (used for the bias vector). -/
structure QTensor1 where
  len : Nat
  data : Nat → ℤ
  scale : ℚ
  zero_point : ℤ
  dtype : DType

/-- A real-valued (float) tensor. -/
structure FTensor where
  shape : List Nat
  data : List Nat → ℚ

/-- A real-valued (float) 1-D tensor. -/
structure FTensor1 where
  len : Nat
  data : Nat → ℚ

/-- Clamp an integer to the representable range of a dtype. -/
def clampToRange (d : DType) (x : ℤ) : ℤ := max d.qmin (min d.qmax x)

/-- torch.quantize_linear on a real tensor: per element round(x/scale) +
zero_point, clamped to the dtype range. -/
def quantize_linear (t : FTensor) (s : ℚ) (z : ℤ) (d : DType) : QTensor :=
  ⟨t.shape, fun idx => clampToRange d (round (t.data idx / s) + z), s, z, d⟩

/-- torch.quantize_linear on a 1-D real tensor. -/
def quantize_linear1 (t : FTensor1) (s : ℚ) (z : ℤ) (d : DType) : QTensor1 :=
  ⟨t.len, fun i => clampToRange d (round (t.data i / s) + z), s, z, d⟩

/-- Tensor.dequantize on a 1-D quantized tensor: scale * (q - zero_point). -/
def dequantize1 (q : QTensor1) : FTensor1 :=
  ⟨q.len, fun i => q.scale * ((q.data i : ℚ) - (q.zero_point : ℚ))⟩

/-- Tensor.permute([0, 2, 3, 1]) on a 4-D tensor (NCHW to NHWC): the result
at index [i0,i1,i2,i3] is the argument at index [i0,i3,i1,i2], and the
result shape is [s0,s2,s3,s1]. -/
def permute_0231 (t : QTensor) : QTensor :=
  { shape := [t.shape.getD 0 0, t.shape.getD 2 0, t.shape.getD 3 0, t.shape.getD 1 0]
    data := fun idx => t.data [idx.getD 0 0, idx.getD 3 0, idx.getD 1 0, idx.getD 2 0]
    scale := t.scale
    zero_point := t.zero_point
    dtype := t.dtype }

/-- Tensor.permute([0, 3, 1, 2]) on a 4-D tensor (NHWC to NCHW): the result
at index [i0,i1,i2,i3] is the argument at index [i0,i2,i3,i1], and the
result shape is [s0,s3,s1,s2]. -/
def permute_0312 (t : QTensor) : QTensor :=
  { shape := [t.shape.getD 0 0, t.shape.getD 3 0, t.shape.getD 1 0, t.shape.getD 2 0]
    data := fun idx => t.data [idx.getD 0 0, idx.getD 2 0, idx.getD 3 0, idx.getD 1 0]
    scale := t.scale
    zero_point := t.zero_point
    dtype := t.dtype }

/-- Bit-identity of quantized tensors: equal shape, quantization parameters,
dtype, and equal integer data on every index list of the tensor's rank. -/
def QTensor.equiv (a b : QTensor) : Prop :=
  a.shape = b.shape ∧ a.scale = b.scale ∧ a.zero_point = b.zero_point ∧
    a.dtype = b.dtype ∧
    ∀ idx : List Nat, idx.length = b.shape.length → a.data idx = b.data idx

/-- The external compute backend (FBGEMM ops, reached through
torch.ops.quantized): packing, unpacking, and the conv2d kernel.  The packed
representation is an opaque type α. -/
structure Backend (α : Type) where
  conv_prepack : QTensor → Nat × Nat → Nat × Nat → Nat × Nat → Nat → α
  conv_unpack : α → QTensor
  conv2d : QTensor → α → Option QTensor1 → Nat × Nat → Nat × Nat → Nat × Nat →
    Nat → ℚ → ℤ → QTensor

/-- State of an nn.quantized.Conv2d module, with the fields assigned by
Conv2d.__init__ (conv.py lines 70-96). -/
structure Conv2d (α : Type) where
  in_channels : Nat
  out_channels : Nat
  kernel_size : Nat × Nat
  stride : Nat × Nat
  padding : Nat × Nat
  dilation : Nat × Nat
  transposed : Bool
  output_padding : Nat
  groups : Nat
  padding_mode : String
  _packed_weight : α
  weight_scale : ℚ
  bias : Option QTensor1
  scale : ℚ
  zero_point : ℤ

/-- Conv2d.set_weight (conv.py lines 111-114): repack the NCHW weight as
NHWC via permute([0,2,3,1]) and cache its scale in weight_scale. -/
def set_weight {α : Type} (B : Backend α) (m : Conv2d α) (w : QTensor) : Conv2d α :=
  { m with
    _packed_weight := B.conv_prepack (permute_0231 w) m.stride m.padding m.dilation m.groups
    weight_scale := w.scale }

/-- Conv2d.weight (conv.py lines 116-118): unpack the packed weight and
permute([0,3,1,2]) back to NCHW. -/
def weight {α : Type} (B : Backend α) (m : Conv2d α) : QTensor :=
  permute_0312 (B.conv_unpack m._packed_weight)

/-- A list of length four is a literal four-element list. -/
lemma length_eq_four {γ : Type} {l : List γ} (h : l.length = 4) :
    ∃ a b c d, l = [a, b, c, d] := by
  rcases l with _ | ⟨a, l⟩
  · simp at h
  rcases l with _ | ⟨b, l⟩
  · simp at h
  rcases l with _ | ⟨c, l⟩
  · simp at h
  rcases l with _ | ⟨d, l⟩
  · simp at h
  rcases l with _ | ⟨e, l⟩
  · exact ⟨a, b, c, d, rfl⟩
  · simp at h

/-- C1: for every 4-D quantized tensor w, set_weight(w) followed by weight()
returns a tensor bit-identical to w (shape, integer values, scale,
zero_point, dtype), assuming the backend's conv_unpack is the inverse of
conv_prepack; the NCHW-to-NHWC permutation [0,2,3,1] applied before packing
and the permutation [0,3,1,2] applied after unpacking compose to the
identity. -/
theorem c1_set_weight_weight_roundtrip {α : Type} (B : Backend α)
    (hB : ∀ w s p d g, B.conv_unpack (B.conv_prepack w s p d g) = w)
    (m : Conv2d α) (w : QTensor) (hw : w.shape.length = 4) :
    QTensor.equiv (weight B (set_weight B m w)) w := by
  have hW : weight B (set_weight B m w) = permute_0312 (permute_0231 w) := by
    unfold weight set_weight
    simp only [hB]
  rw [hW]
  obtain ⟨s0, s1, s2, s3, hsh⟩ := length_eq_four hw
  refine ⟨?_, rfl, rfl, rfl, ?_⟩
  · simp [permute_0312, permute_0231, hsh]
  · intro idx hlen
    rw [hw] at hlen
    obtain ⟨i0, i1, i2, i3, hidx⟩ := length_eq_four hlen
    simp [permute_0312, permute_0231, hidx]

/-- A trivial backend instance where packing is the identity, used to
instantiate theorems at concrete inputs. -/
def idBackend : Backend QTensor :=
  { conv_prepack := fun w _ _ _ _ => w
    conv_unpack := fun a => a
    conv2d := fun _ _ _ _ _ _ _ _ _ => ⟨[], fun _ => 0, 1, 0, .qint8⟩ }

/-- A concrete 4-D quantized weight tensor. -/
def sampleW : QTensor := ⟨[1, 1, 1, 1], fun _ => 0, 1, 0, .qint8⟩

/-- A concrete module state. -/
def sampleM : Conv2d QTensor :=
  { in_channels := 1, out_channels := 1, kernel_size := (1, 1), stride := (1, 1)
    padding := (0, 0), dilation := (1, 1), transposed := false, output_padding := 0
    groups := 1, padding_mode := "zeros", _packed_weight := sampleW
    weight_scale := 1, bias := none, scale := 1, zero_point := 0 }

/-- Witness for C1: the round-trip theorem applied to a concrete backend,
module and weight. -/
theorem c1_witness :
    QTensor.equiv (weight idBackend (set_weight idBackend sampleM sampleW)) sampleW :=
  c1_set_weight_weight_roundtrip idBackend (fun _ _ _ _ _ => rfl) sampleM sampleW rfl

/-- Error taxonomy of the module: configError covers the constructor's
NotImplementedError / ValueError, shapeError the ValueError raised by
forward, unsupportedDtype / typeMismatch / configError the assertions in
from_float, attrError a Python AttributeError on a missing attribute, and
stateError a KeyError on a missing state-dict entry. -/
inductive QError
  | configError
  | shapeError
  | unsupportedDtype
  | typeMismatch
  | stateError
  | attrError
  | typeError
deriving DecidableEq

/-- Observable effects of the module's operations: tensor allocation
(torch._empty_affine_quantized), running an observer over a tensor,
a torch.quantize_linear call with its parameters, an invocation of the
external conv2d kernel with the bias argument passed to it, and completed
construction of a quantized module instance. -/
inductive Event
  | alloc
  | observe
  | quant (s : ℚ) (z : ℤ) (d : DType)
  | kernel (bias : Option QTensor1)
  | construct

/-- torch._empty_affine_quantized: allocates an uninitialized quantized
tensor with the given shape and quantization parameters.  The uninitialized
contents are modelled as zeros; no claim observes the placeholder values. -/
def empty_affine_quantized (shape : List Nat) (s : ℚ) (z : ℤ) (d : DType) : QTensor :=
  ⟨shape, fun _ => 0, s, z, d⟩

/-- torch._empty_affine_quantized for a 1-D tensor. -/
def empty_affine_quantized1 (len : Nat) (s : ℚ) (z : ℤ) (d : DType) : QTensor1 :=
  ⟨len, fun _ => 0, s, z, d⟩

/-- Conv2d.__init__ (conv.py lines 59-96): validates padding_mode and the
channel/group divisibility, then allocates the identity-quantized
placeholder weight (packing it via set_weight) and, when bias is requested,
the placeholder bias; output scale and zero_point default to (1.0, 0).
The weight_scale field holds the placeholder weight's scale (1), as set by
the set_weight call on line 87.  Returned events record the tensor
allocations and the completed construction, in order. -/
def Conv2d.init {α : Type} (B : Backend α) (in_channels out_channels : Nat)
    (kernel_size stride padding dilation : Nat × Nat) (groups : Nat)
    (bias : Bool) (padding_mode : String) :
    Except QError (Conv2d α) × List Event :=
  if padding_mode ≠ "zeros" then (.error .configError, [])
  else if in_channels % groups ≠ 0 then (.error .configError, [])
  else if out_channels % groups ≠ 0 then (.error .configError, [])
  else
    let qweight := empty_affine_quantized
      [out_channels, in_channels / groups, kernel_size.1, kernel_size.2] 1 0 .qint8
    let m : Conv2d α :=
      { in_channels := in_channels, out_channels := out_channels
        kernel_size := kernel_size, stride := stride, padding := padding
        dilation := dilation, transposed := false, output_padding := 0
        groups := groups, padding_mode := padding_mode
        _packed_weight := B.conv_prepack (permute_0231 qweight) stride padding dilation groups
        weight_scale := qweight.scale
        bias := if bias then some (empty_affine_quantized1 out_channels 1 0 .qint32) else none
        scale := 1, zero_point := 0 }
    (.ok m, if bias then [.alloc, .alloc, .construct] else [.alloc, .construct])

/-- Conv2d.forward (conv.py lines 120-135): validate that the input is 4-D,
requantize the stored bias to scale weight_scale * input.q_scale() with
zero_point 0 and dtype qint32, invoke the external kernel on the
NHWC-permuted input, and permute the result back to NCHW.  The module state
is returned unchanged (forward assigns no field of self). -/
def forward {α : Type} (B : Backend α) (m : Conv2d α) (input : QTensor) :
    Conv2d α × Except QError QTensor × List Event :=
  if input.shape.length ≠ 4 then (m, .error .shapeError, [])
  else
    match m.bias with
    | none =>
      let out := B.conv2d (permute_0231 input) m._packed_weight none
        m.stride m.padding m.dilation m.groups m.scale m.zero_point
      (m, .ok (permute_0312 out), [.kernel none])
    | some b =>
      let eb := quantize_linear1 (dequantize1 b) (m.weight_scale * input.scale) 0 .qint32
      let out := B.conv2d (permute_0231 input) m._packed_weight (some eb)
        m.stride m.padding m.dilation m.groups m.scale m.zero_point
      (m, .ok (permute_0312 out),
        [.quant (m.weight_scale * input.scale) 0 .qint32, .kernel (some eb)])

/-- C3: on every forward call with a 4-D input on a module with a stored
bias, the bias passed to the compute kernel is the stored bias dequantized
and requantized with scale weight_scale * input.scale, zero_point 0, and
32-bit signed dtype. -/
theorem c3_forward_bias_requantized {α : Type} (B : Backend α) (m : Conv2d α)
    (input : QTensor) (b : QTensor1) (h4 : input.shape.length = 4)
    (hb : m.bias = some b) :
    forward B m input =
      (m, .ok (permute_0312 (B.conv2d (permute_0231 input) m._packed_weight
          (some (quantize_linear1 (dequantize1 b) (m.weight_scale * input.scale) 0 .qint32))
          m.stride m.padding m.dilation m.groups m.scale m.zero_point)),
        [.quant (m.weight_scale * input.scale) 0 .qint32,
         .kernel (some (quantize_linear1 (dequantize1 b) (m.weight_scale * input.scale) 0 .qint32))]) ∧
    (quantize_linear1 (dequantize1 b) (m.weight_scale * input.scale) 0 .qint32).scale
        = m.weight_scale * input.scale ∧
    (quantize_linear1 (dequantize1 b) (m.weight_scale * input.scale) 0 .qint32).zero_point = 0 ∧
    (quantize_linear1 (dequantize1 b) (m.weight_scale * input.scale) 0 .qint32).dtype = .qint32 := by
  refine ⟨?_, rfl, rfl, rfl⟩
  simp [forward, h4, hb]

/-- A concrete stored bias whose dequantization is the real value 10.0
(scale 1, zero_point 0, integer value 10). -/
def sampleB10 : QTensor1 := ⟨1, fun _ => 10, 1, 0, .qint32⟩

/-- A concrete module with weight_scale 0.01 and the stored bias
sampleB10. -/
def sampleM3 : Conv2d QTensor :=
  { sampleM with weight_scale := 1 / 100, bias := some sampleB10 }

/-- A concrete 4-D input with quantization scale 0.5. -/
def sampleIn : QTensor := ⟨[1, 1, 1, 1], fun _ => 0, 1 / 2, 0, .quint8⟩

/-- Witness for C3: with weight_scale 0.01 and input scale 0.5 the forward
call requantizes the bias first, the effective scale is 0.005 = 1/200, and
the effective integer value is round(10.0 / 0.005) = 2000. -/
theorem c3_witness :
    (forward idBackend sampleM3 sampleIn).2.2.head? =
      some (.quant (sampleM3.weight_scale * sampleIn.scale) 0 .qint32) ∧
    sampleM3.weight_scale * sampleIn.scale = 1 / 200 ∧
    (quantize_linear1 (dequantize1 sampleB10)
      (sampleM3.weight_scale * sampleIn.scale) 0 .qint32).data 0 = 2000 := by
  refine ⟨?_, ?_, ?_⟩
  · rw [(c3_forward_bias_requantized idBackend sampleM3 sampleIn sampleB10 rfl rfl).1]
    rfl
  · norm_num [sampleM3, sampleM, sampleIn]
  · norm_num [quantize_linear1, dequantize1, sampleB10, sampleM3, sampleM, sampleIn,
      clampToRange, DType.qmin, DType.qmax]

/-- C6: forward on an input whose rank is not 4 fails with the shape error,
returns the module state unchanged, and performs no effect at all: no bias
requantization and no kernel invocation. -/
theorem c6_forward_rank_check {α : Type} (B : Backend α) (m : Conv2d α)
    (input : QTensor) (h : input.shape.length ≠ 4) :
    forward B m input = (m, .error .shapeError, []) := by
  simp [forward, h]

/-- A concrete rank-3 input tensor. -/
def sampleIn3 : QTensor := ⟨[1, 1, 1], fun _ => 0, 1, 0, .quint8⟩

/-- Witness for C6: forward on a rank-3 input raises the shape error with
no events and unchanged state. -/
theorem c6_witness :
    forward idBackend sampleM sampleIn3 = (sampleM, .error .shapeError, []) :=
  c6_forward_rank_check idBackend sampleM sampleIn3 (by decide)

/-- C8: constructing a module with a padding mode other than zero-padding,
or with in_channels or out_channels not divisible by groups, fails with the
configuration error before any tensor is allocated (the event list is
empty) and produces no module instance. -/
theorem c8_init_validation {α : Type} (B : Backend α)
    (in_channels out_channels : Nat)
    (kernel_size stride padding dilation : Nat × Nat) (groups : Nat)
    (bias : Bool) (padding_mode : String)
    (h : padding_mode ≠ "zeros" ∨ in_channels % groups ≠ 0 ∨
      out_channels % groups ≠ 0) :
    Conv2d.init B in_channels out_channels kernel_size stride padding dilation
        groups bias padding_mode = (.error .configError, []) := by
  by_cases h1 : padding_mode ≠ "zeros"
  · simp [Conv2d.init, h1]
  · by_cases h2 : in_channels % groups ≠ 0
    · simp [Conv2d.init, h1, h2]
    · rcases h with h | h | h
      · exact absurd h h1
      · exact absurd h h2
      · simp [Conv2d.init, h1, h2, h]

/-- Witness for C8: in_channels = 10 with groups = 3 is rejected with the
configuration error and an empty event list. -/
theorem c8_witness :
    Conv2d.init idBackend 10 6 (1, 1) (1, 1) (0, 0) (1, 1) 3 true "zeros" =
      (.error .configError, []) :=
  c8_init_validation idBackend 10 6 (1, 1) (1, 1) (0, 0) (1, 1) 3 true "zeros"
    (Or.inr (Or.inl (by decide)))

/-- Python values appearing in the module's serialized state: plain scalars,
pairs, strings, a portable quantized tensor, an optional quantized bias
(tensor or None), and the opaque packed weight. -/
inductive PyValue (α : Type)
  | nat (n : Nat)
  | int (z : ℤ)
  | rat (q : ℚ)
  | bool (b : Bool)
  | str (s : String)
  | pair (p : Nat × Nat)
  | qtensor (t : QTensor)
  | obias (b : Option QTensor1)
  | packed (a : α)

/-- Whether a serialized value is the opaque packed weight. -/
def PyValue.isPacked {α : Type} : PyValue α → Bool
  | .packed _ => true
  | _ => false

/-- Conv2d.__getstate__ (conv.py lines 149-166): the positional state tuple,
in source order. -/
def getstate {α : Type} (B : Backend α) (m : Conv2d α) : List (PyValue α) :=
  [.nat m.in_channels,
   .nat m.out_channels,
   .pair m.kernel_size,
   .pair m.stride,
   .pair m.padding,
   .pair m.dilation,
   .bool m.transposed,
   .nat m.output_padding,
   .nat m.groups,
   .str m.padding_mode,
   .qtensor (weight B m),
   .obias m.bias,
   .rat m.scale,
   .int m.zero_point]

/-- Conv2d._save_to_state_dict (conv.py lines 142-147): appends the named
entries weight, scale, zero_point and bias to the destination mapping after
the superclass call (which registers nothing, since the module holds no
parameters or buffers). -/
def save_to_state_dict {α : Type} (B : Backend α) (m : Conv2d α)
    (destination : List (String × PyValue α)) (pfx : String) :
    List (String × PyValue α) :=
  destination ++
    [(pfx ++ "weight", .qtensor (weight B m)),
     (pfx ++ "scale", .rat m.scale),
     (pfx ++ "zero_point", .int m.zero_point),
     (pfx ++ "bias", .obias m.bias)]

/-- C2: the positional state tuple has exactly the field order in_channels,
out_channels, kernel_size, stride, padding, dilation, transposed,
output_padding, groups, padding_mode, weight, bias, scale, zero_point;
neither it nor the entries that _save_to_state_dict adds to the named
mapping ever contain the opaque packed weight — only the portable result of
weight(). -/
theorem c2_serialized_state_portable {α : Type} (B : Backend α) (m : Conv2d α)
    (destination : List (String × PyValue α)) (pfx : String) :
    getstate B m =
      [.nat m.in_channels, .nat m.out_channels, .pair m.kernel_size,
       .pair m.stride, .pair m.padding, .pair m.dilation, .bool m.transposed,
       .nat m.output_padding, .nat m.groups, .str m.padding_mode,
       .qtensor (weight B m), .obias m.bias, .rat m.scale, .int m.zero_point] ∧
    (∀ v ∈ getstate B m, v.isPacked = false) ∧
    save_to_state_dict B m destination pfx =
      destination ++
        [(pfx ++ "weight", .qtensor (weight B m)),
         (pfx ++ "scale", .rat m.scale),
         (pfx ++ "zero_point", .int m.zero_point),
         (pfx ++ "bias", .obias m.bias)] ∧
    (∀ kv ∈ [(pfx ++ "weight", PyValue.qtensor (weight B m)),
             (pfx ++ "scale", PyValue.rat m.scale),
             (pfx ++ "zero_point", PyValue.int m.zero_point),
             (pfx ++ "bias", PyValue.obias (α := α) m.bias)],
      kv.2.isPacked = false) := by
  refine ⟨rfl, ?_, rfl, ?_⟩
  · intro v hv
    simp only [getstate, List.mem_cons, List.not_mem_nil, or_false] at hv
    rcases hv with rfl | rfl | rfl | rfl | rfl | rfl | rfl | rfl | rfl | rfl |
      rfl | rfl | rfl | rfl <;> rfl
  · intro kv hkv
    simp only [List.mem_cons, List.not_mem_nil, or_false] at hkv
    rcases hkv with rfl | rfl | rfl | rfl <;> rfl

/-- Witness for C2 at a concrete module and empty destination mapping. -/
theorem c2_witness :
    getstate idBackend sampleM =
      [.nat sampleM.in_channels, .nat sampleM.out_channels,
       .pair sampleM.kernel_size, .pair sampleM.stride, .pair sampleM.padding,
       .pair sampleM.dilation, .bool sampleM.transposed,
       .nat sampleM.output_padding, .nat sampleM.groups,
       .str sampleM.padding_mode, .qtensor (weight idBackend sampleM),
       .obias sampleM.bias, .rat sampleM.scale, .int sampleM.zero_point] ∧
    ∀ v ∈ getstate idBackend sampleM, v.isPacked = false :=
  ⟨(c2_serialized_state_portable idBackend sampleM [] "").1,
   (c2_serialized_state_portable idBackend sampleM [] "").2.1⟩

/-- Python dict lookup (state_dict[k]) on an association list: returns the
value of the first entry with the given key. -/
def lookupKey {V : Type} (k : String) : List (String × V) → Option V
  | [] => none
  | (k', v) :: rest => if k' = k then some v else lookupKey k rest

/-- Python dict pop (state_dict.pop(k)) on an association list: removes the
first entry with the given key. -/
def popKey {V : Type} (k : String) : List (String × V) → List (String × V)
  | [] => []
  | (k', v) :: rest => if k' = k then rest else (k', v) :: popKey k rest

lemma popKey_sublist {V : Type} (k : String) (l : List (String × V)) :
    List.Sublist (popKey k l) l := by
  induction l with
  | nil => simp [popKey]
  | cons kv rest ih =>
    obtain ⟨k', v⟩ := kv
    by_cases h : k' = k
    · simp [popKey, h]
    · simpa [popKey, h] using ih.cons₂ (k', v)

lemma lookupKey_eq_none_of_not_mem {V : Type} {k : String}
    {l : List (String × V)} (h : k ∉ l.map Prod.fst) : lookupKey k l = none := by
  induction l with
  | nil => rfl
  | cons kv rest ih =>
    obtain ⟨k', v⟩ := kv
    simp only [List.map_cons, List.mem_cons] at h
    push_neg at h
    simp only [lookupKey]
    rw [if_neg fun he => h.1 he.symm]
    exact ih h.2

lemma lookupKey_popKey_self {V : Type} {k : String} {l : List (String × V)}
    (h : (l.map Prod.fst).Nodup) : lookupKey k (popKey k l) = none := by
  induction l with
  | nil => rfl
  | cons kv rest ih =>
    obtain ⟨k', v⟩ := kv
    simp only [List.map_cons, List.nodup_cons] at h
    by_cases hk : k' = k
    · subst hk
      have e1 : popKey k' ((k', v) :: rest) = rest := by simp [popKey]
      rw [e1]
      exact lookupKey_eq_none_of_not_mem h.1
    · have e1 : popKey k ((k', v) :: rest) = (k', v) :: popKey k rest := by
        simp [popKey, hk]
      rw [e1]
      simp only [lookupKey]
      rw [if_neg hk]
      exact ih h.2

lemma lookupKey_popKey_ne {V : Type} {kq kp : String} (h : kq ≠ kp)
    (l : List (String × V)) : lookupKey kq (popKey kp l) = lookupKey kq l := by
  induction l with
  | nil => rfl
  | cons kv rest ih =>
    obtain ⟨k', v⟩ := kv
    by_cases hp : k' = kp
    · subst hp
      have e1 : popKey k' ((k', v) :: rest) = rest := by simp [popKey]
      have e2 : lookupKey kq ((k', v) :: rest) = lookupKey kq rest := by
        simp only [lookupKey]
        exact if_neg fun he => h he.symm
      rw [e1, e2]
    · have e1 : popKey kp ((k', v) :: rest) = (k', v) :: popKey kp rest := by
        simp [popKey, hp]
      rw [e1]
      simp only [lookupKey]
      by_cases hq : k' = kq
      · rw [if_pos hq, if_pos hq]
      · rw [if_neg hq, if_neg hq]
        exact ih

lemma nodup_keys_popKey {V : Type} {k : String} {l : List (String × V)}
    (h : (l.map Prod.fst).Nodup) : ((popKey k l).map Prod.fst).Nodup :=
  h.sublist ((popKey_sublist k l).map Prod.fst)

lemma append_right_ne (p : String) {a b : String} (h : a ≠ b) :
    p ++ a ≠ p ++ b := by
  intro he
  apply h
  have hd : p.data ++ a.data = p.data ++ b.data := by
    have h2 := congrArg String.data he
    simpa [String.data_append] using h2
  exact String.ext (List.append_cancel_left hd)

/-- Conv2d._load_from_state_dict (conv.py lines 171-187): look up and install
the weight via set_weight, then bias, scale and zero_point by direct
assignment, popping each key from the caller's mapping after use; a missing
key raises (KeyError) at the point it is first indexed, leaving the
assignments already made in place.  The superclass loader called at the end
only reads the mapping (the module registers no parameters or buffers), so
the mapping it leaves behind is the one after the four pops.  The result is
the module state, the caller's mapping, and the outcome. -/
def load_from_state_dict {α : Type} (B : Backend α) (m : Conv2d α)
    (state_dict : List (String × PyValue α)) (pfx : String) :
    Conv2d α × List (String × PyValue α) × Except QError Unit :=
  match lookupKey (pfx ++ "weight") state_dict with
  | none => (m, state_dict, .error .stateError)
  | some (.qtensor w) =>
    let m1 := set_weight B m w
    let sd1 := popKey (pfx ++ "weight") state_dict
    match lookupKey (pfx ++ "bias") sd1 with
    | none => (m1, sd1, .error .stateError)
    | some (.obias b) =>
      let m2 := { m1 with bias := b }
      let sd2 := popKey (pfx ++ "bias") sd1
      match lookupKey (pfx ++ "scale") sd2 with
      | none => (m2, sd2, .error .stateError)
      | some (.rat q) =>
        let m3 := { m2 with scale := q }
        let sd3 := popKey (pfx ++ "scale") sd2
        match lookupKey (pfx ++ "zero_point") sd3 with
        | none => (m3, sd3, .error .stateError)
        | some (.int z) =>
          ({ m3 with zero_point := z }, popKey (pfx ++ "zero_point") sd3, .ok ())
        | some _ => (m3, sd3, .error .typeError)
      | some _ => (m2, sd2, .error .typeError)
    | some _ => (m1, sd1, .error .typeError)
  | some _ => (m, state_dict, .error .typeError)

lemma load_from_state_dict_complete {α : Type} (B : Backend α) (m : Conv2d α)
    (sd : List (String × PyValue α)) (pfx : String) (w : QTensor)
    (b : Option QTensor1) (q : ℚ) (z : ℤ)
    (hw : lookupKey (pfx ++ "weight") sd = some (.qtensor w))
    (hb : lookupKey (pfx ++ "bias") (popKey (pfx ++ "weight") sd) = some (.obias b))
    (hq : lookupKey (pfx ++ "scale") (popKey (pfx ++ "bias")
      (popKey (pfx ++ "weight") sd)) = some (.rat q))
    (hz : lookupKey (pfx ++ "zero_point") (popKey (pfx ++ "scale")
      (popKey (pfx ++ "bias") (popKey (pfx ++ "weight") sd))) = some (.int z)) :
    load_from_state_dict B m sd pfx =
      ({ set_weight B m w with bias := b, scale := q, zero_point := z },
       popKey (pfx ++ "zero_point") (popKey (pfx ++ "scale")
         (popKey (pfx ++ "bias") (popKey (pfx ++ "weight") sd))),
       .ok ()) := by
  simp only [load_from_state_dict, hw, hb, hq, hz]

/-- C9 (amended): a deserialization input missing a required field (weight,
bias, scale or zero_point, probed in that order) fails with the state
error, but the fields processed before the missing key remain installed —
the module can be left partially updated, there is no rollback; an input
containing all four fields installs the weight via set_weight and assigns
bias, scale and zero_point directly. -/
theorem c9_load_state_dict_behaviour {α : Type} (B : Backend α) (m : Conv2d α)
    (sd : List (String × PyValue α)) (pfx : String) :
    (lookupKey (pfx ++ "weight") sd = none →
      load_from_state_dict B m sd pfx = (m, sd, .error .stateError)) ∧
    (∀ w, lookupKey (pfx ++ "weight") sd = some (.qtensor w) →
      lookupKey (pfx ++ "bias") (popKey (pfx ++ "weight") sd) = none →
      load_from_state_dict B m sd pfx =
        (set_weight B m w, popKey (pfx ++ "weight") sd, .error .stateError)) ∧
    (∀ w b, lookupKey (pfx ++ "weight") sd = some (.qtensor w) →
      lookupKey (pfx ++ "bias") (popKey (pfx ++ "weight") sd) = some (.obias b) →
      lookupKey (pfx ++ "scale") (popKey (pfx ++ "bias")
        (popKey (pfx ++ "weight") sd)) = none →
      load_from_state_dict B m sd pfx =
        ({ set_weight B m w with bias := b },
         popKey (pfx ++ "bias") (popKey (pfx ++ "weight") sd), .error .stateError)) ∧
    (∀ w b q, lookupKey (pfx ++ "weight") sd = some (.qtensor w) →
      lookupKey (pfx ++ "bias") (popKey (pfx ++ "weight") sd) = some (.obias b) →
      lookupKey (pfx ++ "scale") (popKey (pfx ++ "bias")
        (popKey (pfx ++ "weight") sd)) = some (.rat q) →
      lookupKey (pfx ++ "zero_point") (popKey (pfx ++ "scale")
        (popKey (pfx ++ "bias") (popKey (pfx ++ "weight") sd))) = none →
      load_from_state_dict B m sd pfx =
        ({ set_weight B m w with bias := b, scale := q },
         popKey (pfx ++ "scale") (popKey (pfx ++ "bias")
           (popKey (pfx ++ "weight") sd)), .error .stateError)) ∧
    (∀ w b q z, lookupKey (pfx ++ "weight") sd = some (.qtensor w) →
      lookupKey (pfx ++ "bias") (popKey (pfx ++ "weight") sd) = some (.obias b) →
      lookupKey (pfx ++ "scale") (popKey (pfx ++ "bias")
        (popKey (pfx ++ "weight") sd)) = some (.rat q) →
      lookupKey (pfx ++ "zero_point") (popKey (pfx ++ "scale")
        (popKey (pfx ++ "bias") (popKey (pfx ++ "weight") sd))) = some (.int z) →
      load_from_state_dict B m sd pfx =
        ({ set_weight B m w with bias := b, scale := q, zero_point := z },
         popKey (pfx ++ "zero_point") (popKey (pfx ++ "scale")
           (popKey (pfx ++ "bias") (popKey (pfx ++ "weight") sd))), .ok ())) := by
  refine ⟨?_, ?_, ?_, ?_, ?_⟩
  · intro hw
    simp only [load_from_state_dict, hw]
  · intro w hw hb
    simp only [load_from_state_dict, hw, hb]
  · intro w b hw hb hq
    simp only [load_from_state_dict, hw, hb, hq]
  · intro w b q hw hb hq hz
    simp only [load_from_state_dict, hw, hb, hq, hz]
  · intro w b q z hw hb hq hz
    exact load_from_state_dict_complete B m sd pfx w b q z hw hb hq hz

/-- A weight tensor with scale 2, distinguishable from the placeholder. -/
def sampleW2 : QTensor := ⟨[1, 1, 1, 1], fun _ => 0, 2, 0, .qint8⟩

/-- A state dict containing the weight but missing the bias entry. -/
def sdMissingBias : List (String × PyValue QTensor) :=
  [("weight", .qtensor sampleW2)]

/-- Counterexample for C9: a state dict missing the bias field raises the
state error, yet the weight was already installed (weight_scale changed
from 1 to 2) — a partially updated module is produced, contradicting the
claim that no partially-initialized module results. -/
theorem c9_counterexample :
    (load_from_state_dict idBackend sampleM sdMissingBias "").2.2 =
        .error .stateError ∧
    (load_from_state_dict idBackend sampleM sdMissingBias "").1.weight_scale = 2 ∧
    sampleM.weight_scale = 1 :=
  ⟨rfl, rfl, rfl⟩

/-- A complete concrete state dict with all four required entries. -/
def sdFull : List (String × PyValue QTensor) :=
  [("weight", .qtensor sampleW2), ("bias", .obias none),
   ("scale", .rat 1), ("zero_point", .int 0)]

/-- Witness for C9: loading a complete state dict succeeds, installing the
weight via set_weight and assigning bias, scale, zero_point. -/
theorem c9_witness :
    load_from_state_dict idBackend sampleM sdFull "" =
      ({ set_weight idBackend sampleM sampleW2 with
          bias := none, scale := 1, zero_point := 0 },
       [], .ok ()) :=
  (c9_load_state_dict_behaviour idBackend sampleM sdFull "").2.2.2.2
    sampleW2 none 1 0 rfl rfl rfl rfl

/-- C10: on a state dict containing the four required keys (with distinct
keys, as in a Python dict), _load_from_state_dict removes exactly the
entries pfx+weight, pfx+bias, pfx+scale and pfx+zero_point from the
caller's mapping, and every other entry keeps its binding. -/
theorem c10_load_pops_exactly_required {α : Type} (B : Backend α)
    (m : Conv2d α) (sd : List (String × PyValue α)) (pfx : String)
    (w : QTensor) (b : Option QTensor1) (q : ℚ) (z : ℤ)
    (hnd : (sd.map Prod.fst).Nodup)
    (hw : lookupKey (pfx ++ "weight") sd = some (.qtensor w))
    (hb : lookupKey (pfx ++ "bias") (popKey (pfx ++ "weight") sd) = some (.obias b))
    (hq : lookupKey (pfx ++ "scale") (popKey (pfx ++ "bias")
      (popKey (pfx ++ "weight") sd)) = some (.rat q))
    (hz : lookupKey (pfx ++ "zero_point") (popKey (pfx ++ "scale")
      (popKey (pfx ++ "bias") (popKey (pfx ++ "weight") sd))) = some (.int z)) :
    (load_from_state_dict B m sd pfx).2.1 =
      popKey (pfx ++ "zero_point") (popKey (pfx ++ "scale")
        (popKey (pfx ++ "bias") (popKey (pfx ++ "weight") sd))) ∧
    lookupKey (pfx ++ "weight") (load_from_state_dict B m sd pfx).2.1 = none ∧
    lookupKey (pfx ++ "bias") (load_from_state_dict B m sd pfx).2.1 = none ∧
    lookupKey (pfx ++ "scale") (load_from_state_dict B m sd pfx).2.1 = none ∧
    lookupKey (pfx ++ "zero_point") (load_from_state_dict B m sd pfx).2.1 = none ∧
    ∀ k, k ≠ pfx ++ "weight" → k ≠ pfx ++ "bias" → k ≠ pfx ++ "scale" →
      k ≠ pfx ++ "zero_point" →
      lookupKey k (load_from_state_dict B m sd pfx).2.1 = lookupKey k sd := by
  have hEq := load_from_state_dict_complete B m sd pfx w b q z hw hb hq hz
  have hdict : (load_from_state_dict B m sd pfx).2.1 =
      popKey (pfx ++ "zero_point") (popKey (pfx ++ "scale")
        (popKey (pfx ++ "bias") (popKey (pfx ++ "weight") sd))) := by
    rw [hEq]
  have hwb : pfx ++ "weight" ≠ pfx ++ "bias" := append_right_ne pfx (by decide)
  have hws : pfx ++ "weight" ≠ pfx ++ "scale" := append_right_ne pfx (by decide)
  have hwz : pfx ++ "weight" ≠ pfx ++ "zero_point" := append_right_ne pfx (by decide)
  have hbs : pfx ++ "bias" ≠ pfx ++ "scale" := append_right_ne pfx (by decide)
  have hbz : pfx ++ "bias" ≠ pfx ++ "zero_point" := append_right_ne pfx (by decide)
  have hsz : pfx ++ "scale" ≠ pfx ++ "zero_point" := append_right_ne pfx (by decide)
  have hnd1 : ((popKey (pfx ++ "weight") sd).map Prod.fst).Nodup :=
    nodup_keys_popKey hnd
  have hnd2 : ((popKey (pfx ++ "bias")
      (popKey (pfx ++ "weight") sd)).map Prod.fst).Nodup := nodup_keys_popKey hnd1
  have hnd3 : ((popKey (pfx ++ "scale") (popKey (pfx ++ "bias")
      (popKey (pfx ++ "weight") sd))).map Prod.fst).Nodup := nodup_keys_popKey hnd2
  refine ⟨hdict, ?_, ?_, ?_, ?_, ?_⟩
  · rw [hdict, lookupKey_popKey_ne hwz, lookupKey_popKey_ne hws,
      lookupKey_popKey_ne hwb]
    exact lookupKey_popKey_self hnd
  · rw [hdict, lookupKey_popKey_ne hbz, lookupKey_popKey_ne hbs]
    exact lookupKey_popKey_self hnd1
  · rw [hdict, lookupKey_popKey_ne hsz]
    exact lookupKey_popKey_self hnd2
  · rw [hdict]
    exact lookupKey_popKey_self hnd3
  · intro k hkw hkb hks hkz
    rw [hdict, lookupKey_popKey_ne hkz, lookupKey_popKey_ne hks,
      lookupKey_popKey_ne hkb, lookupKey_popKey_ne hkw]

/-- Witness for C10: on the concrete complete state dict the loader leaves
the empty mapping, in which all four keys are absent and (vacuously) every
other key is unchanged. -/
theorem c10_witness :
    (load_from_state_dict idBackend sampleM sdFull "").2.1 = [] ∧
    lookupKey ("" ++ "weight")
      (load_from_state_dict idBackend sampleM sdFull "").2.1 = none ∧
    lookupKey ("" ++ "bias")
      (load_from_state_dict idBackend sampleM sdFull "").2.1 = none := by
  have h := c10_load_pops_exactly_required idBackend sampleM sdFull ""
    sampleW2 none 1 0 (by decide) rfl rfl rfl rfl
  exact ⟨h.1, h.2.1, h.2.2.1⟩

/-- An observer from the calibration subsystem: calculate_qparams() returns
the (scale, zero_point) pair, and the observer carries a configured target
dtype. -/
structure Observer where
  scale : ℚ
  zero_point : ℤ
  dtype : DType

/-- The Python class of the float module passed to from_float, as probed by
the type(mod) == ... comparisons: the plain float Conv2d (_FLOAT_MODULE),
the intrinsic QAT ConvBn2d, the intrinsic ConvReLU2d, or anything else. -/
inductive ModType
  | floatConv2d
  | convBn2d
  | convReLU2d
  | otherType
deriving DecidableEq

/-- A calibrated float convolution module as consumed by Conv2d.from_float:
structural configuration, real-valued weight and optional bias, the
attached activation observer (hasattr(mod, 'observer')), the weight
observer produced by qconfig.weight() when a qconfig is attached, the
weight fake-quantizer when present (hasattr(mod, 'weight_fake_quant')),
and the batch-norm statistics used only when the class is ConvBn2d. -/
structure FloatConv2d where
  modType : ModType
  in_channels : Nat
  out_channels : Nat
  kernel_size : Nat × Nat
  stride : Nat × Nat
  padding : Nat × Nat
  dilation : Nat × Nat
  groups : Nat
  padding_mode : String
  weight : FTensor
  bias : Option FTensor1
  observer : Option Observer
  qconfig_weight : Option Observer
  weight_fake_quant : Option Observer
  running_mean : FTensor1
  running_var : FTensor1
  eps : ℚ
  gamma : FTensor1
  beta : FTensor1

/-- Type of torch.nn.utils.fuse_conv_bn_weights, which is imported by the
source but lives outside it.  It is passed to from_float as a parameter:
no claim depends on the fused values, only on the control flow around the
call. -/
def FuseFn : Type :=
  FTensor → Option FTensor1 → FTensor1 → FTensor1 → ℚ → FTensor1 → FTensor1 →
    FTensor × Option FTensor1

/-- The shared tail of Conv2d.from_float (conv.py lines 238-260), reached
from both the training-time and the post-training branch with the selected
weight observer, activation observer and (possibly fused) weight/bias:
read the activation qparams, assert the weight observer dtype is qint8,
compute bias_scale = activation_scale / 2^16, quantize the weight with the
observer's (scale, zero_point) as qint8, construct the quantized module,
install the weight via set_weight, quantize the bias (if any) with
(bias_scale, 0, qint32), and assign output scale and zero_point. -/
def from_float_common {α : Type} (B : Backend α) (mod : FloatConv2d)
    (weight_observer activation_observer : Observer) (w : FTensor)
    (b : Option FTensor1) (ev0 : List Event) :
    Except QError (Conv2d α) × List Event :=
  if weight_observer.dtype ≠ .qint8 then (.error .unsupportedDtype, ev0)
  else
    let bias_scale := activation_observer.scale / 2 ^ 16
    let qweight := quantize_linear w weight_observer.scale
      weight_observer.zero_point .qint8
    let ev1 := ev0 ++ [Event.quant weight_observer.scale
      weight_observer.zero_point .qint8]
    match Conv2d.init B mod.in_channels mod.out_channels mod.kernel_size
      mod.stride mod.padding mod.dilation mod.groups b.isSome mod.padding_mode with
    | (.error e, ev2) => (.error e, ev1 ++ ev2)
    | (.ok qconv, ev2) =>
      let qconv1 := set_weight B qconv qweight
      match b with
      | some fb =>
        (.ok { qconv1 with
            bias := some (quantize_linear1 fb bias_scale 0 .qint32),
            scale := activation_observer.scale,
            zero_point := activation_observer.zero_point },
         ev1 ++ ev2 ++ [.quant bias_scale 0 .qint32])
      | none =>
        (.ok { qconv1 with
            bias := none,
            scale := activation_observer.scale,
            zero_point := activation_observer.zero_point },
         ev1 ++ ev2)

/-- Conv2d.from_float (conv.py lines 207-260).  Training-time branch
(hasattr weight_fake_quant): when the class is the intrinsic ConvBn2d, the
batch-norm statistics are fused into weight and bias first; the module must
carry an activation observer; the weight observer is the fake-quantizer.
Post-training branch: the class must equal the float Conv2d class, a
qconfig must be attached, the activation observer is read from the module,
the weight observer is qconfig.weight() and is run over the raw weight (the
observe event).  The ConvReLU2d re-dispatch at line 231 is unreachable:
the type assert on line 226 already forced the class to the float Conv2d. -/
def from_float {α : Type} (B : Backend α) (fuseFn : FuseFn) (mod : FloatConv2d) :
    Except QError (Conv2d α) × List Event :=
  match mod.weight_fake_quant with
  | some wfq =>
    let wb : FTensor × Option FTensor1 :=
      if mod.modType = .convBn2d then
        fuseFn mod.weight mod.bias mod.running_mean mod.running_var mod.eps
          mod.gamma mod.beta
      else (mod.weight, mod.bias)
    match mod.observer with
    | none => (.error .configError, [])
    | some actObs => from_float_common B mod wfq actObs wb.1 wb.2 []
  | none =>
    if mod.modType ≠ .floatConv2d then (.error .typeMismatch, [])
    else
      match mod.qconfig_weight with
      | none => (.error .configError, [])
      | some wObs =>
        match mod.observer with
        | none => (.error .attrError, [])
        | some actObs => from_float_common B mod wObs actObs mod.weight mod.bias
            [.observe]

lemma from_float_ptq_reduce {α : Type} (B : Backend α) (f : FuseFn)
    (mod : FloatConv2d) (wObs actObs : Observer)
    (hwfq : mod.weight_fake_quant = none) (ht : mod.modType = .floatConv2d)
    (hq : mod.qconfig_weight = some wObs) (ho : mod.observer = some actObs) :
    from_float B f mod =
      from_float_common B mod wObs actObs mod.weight mod.bias [.observe] := by
  simp [from_float, hwfq, ht, hq, ho]

lemma from_float_qat_reduce {α : Type} (B : Backend α) (f : FuseFn)
    (mod : FloatConv2d) (wfq actObs : Observer)
    (hwfq : mod.weight_fake_quant = some wfq) (ho : mod.observer = some actObs) :
    from_float B f mod =
      from_float_common B mod wfq actObs
        (if mod.modType = .convBn2d then
          f mod.weight mod.bias mod.running_mean mod.running_var mod.eps
            mod.gamma mod.beta
         else (mod.weight, mod.bias)).1
        (if mod.modType = .convBn2d then
          f mod.weight mod.bias mod.running_mean mod.running_var mod.eps
            mod.gamma mod.beta
         else (mod.weight, mod.bias)).2 [] := by
  simp [from_float, hwfq, ho]

lemma from_float_common_gate {α : Type} (B : Backend α) (mod : FloatConv2d)
    (wObs actObs : Observer) (w : FTensor) (b : Option FTensor1)
    (ev0 : List Event) (hd : wObs.dtype ≠ .qint8) :
    from_float_common B mod wObs actObs w b ev0 = (.error .unsupportedDtype, ev0) := by
  simp [from_float_common, hd]

lemma from_float_common_some_eq {α : Type} (B : Backend α) (mod : FloatConv2d)
    (wObs actObs : Observer) (w : FTensor) (fb : FTensor1) (ev0 : List Event)
    (hd : wObs.dtype = .qint8) (hpm : mod.padding_mode = "zeros")
    (hin : mod.in_channels % mod.groups = 0)
    (hout : mod.out_channels % mod.groups = 0) :
    from_float_common B mod wObs actObs w (some fb) ev0 =
      (.ok {
          in_channels := mod.in_channels, out_channels := mod.out_channels,
          kernel_size := mod.kernel_size, stride := mod.stride,
          padding := mod.padding, dilation := mod.dilation, transposed := false,
          output_padding := 0, groups := mod.groups,
          padding_mode := mod.padding_mode,
          _packed_weight := B.conv_prepack
            (permute_0231 (quantize_linear w wObs.scale wObs.zero_point .qint8))
            mod.stride mod.padding mod.dilation mod.groups,
          weight_scale := wObs.scale,
          bias := some (quantize_linear1 fb (actObs.scale / 2 ^ 16) 0 .qint32),
          scale := actObs.scale, zero_point := actObs.zero_point },
       ev0 ++ [.quant wObs.scale wObs.zero_point .qint8] ++
         [.alloc, .alloc, .construct] ++
         [.quant (actObs.scale / 2 ^ 16) 0 .qint32]) := by
  simp [from_float_common, Conv2d.init, set_weight, quantize_linear, hd, hpm, hin, hout]

lemma from_float_common_none_eq {α : Type} (B : Backend α) (mod : FloatConv2d)
    (wObs actObs : Observer) (w : FTensor) (ev0 : List Event)
    (hd : wObs.dtype = .qint8) (hpm : mod.padding_mode = "zeros")
    (hin : mod.in_channels % mod.groups = 0)
    (hout : mod.out_channels % mod.groups = 0) :
    from_float_common B mod wObs actObs w none ev0 =
      (.ok {
          in_channels := mod.in_channels, out_channels := mod.out_channels,
          kernel_size := mod.kernel_size, stride := mod.stride,
          padding := mod.padding, dilation := mod.dilation, transposed := false,
          output_padding := 0, groups := mod.groups,
          padding_mode := mod.padding_mode,
          _packed_weight := B.conv_prepack
            (permute_0231 (quantize_linear w wObs.scale wObs.zero_point .qint8))
            mod.stride mod.padding mod.dilation mod.groups,
          weight_scale := wObs.scale,
          bias := none,
          scale := actObs.scale, zero_point := actObs.zero_point },
       ev0 ++ [.quant wObs.scale wObs.zero_point .qint8] ++
         [.alloc, .construct]) := by
  simp [from_float_common, Conv2d.init, set_weight, quantize_linear, hd, hpm, hin, hout]

/-- The parameters of the first quantize_linear call recorded in an event
list, if any. -/
def firstQuant : List Event → Option (ℚ × ℤ × DType)
  | [] => none
  | .quant s z d :: _ => some (s, z, d)
  | .alloc :: rest => firstQuant rest
  | .observe :: rest => firstQuant rest
  | .kernel _ :: rest => firstQuant rest
  | .construct :: rest => firstQuant rest

lemma firstQuant_append_of_none {l1 l2 : List Event}
    (h : firstQuant l1 = none) : firstQuant (l1 ++ l2) = firstQuant l2 := by
  induction l1 with
  | nil => rfl
  | cons e rest ih =>
    cases e with
    | quant s z d => exact absurd h (by simp [firstQuant])
    | alloc => exact ih (by simpa [firstQuant] using h)
    | observe => exact ih (by simpa [firstQuant] using h)
    | kernel b => exact ih (by simpa [firstQuant] using h)
    | construct => exact ih (by simpa [firstQuant] using h)

lemma firstQuant_from_float_common {α : Type} (B : Backend α)
    (mod : FloatConv2d) (wObs actObs : Observer) (w : FTensor)
    (b : Option FTensor1) (ev0 : List Event) (hd : wObs.dtype = .qint8)
    (h0 : firstQuant ev0 = none) :
    firstQuant (from_float_common B mod wObs actObs w b ev0).2 =
      some (wObs.scale, wObs.zero_point, .qint8) := by
  unfold from_float_common
  rw [if_neg (by simp [hd])]
  rcases hInit : Conv2d.init B mod.in_channels mod.out_channels mod.kernel_size
    mod.stride mod.padding mod.dilation mod.groups b.isSome mod.padding_mode
    with ⟨res, ev2⟩
  rcases res with e | qc
  · dsimp only
    rw [List.append_assoc, firstQuant_append_of_none h0]
    rfl
  · rcases b with _ | fb
    · dsimp only
      rw [List.append_assoc, firstQuant_append_of_none h0]
      rfl
    · dsimp only
      rw [List.append_assoc, List.append_assoc, firstQuant_append_of_none h0]
      rfl

/-- C4 (amended): for every float module accepted by from_float, on either
conversion path, the weight QuantParams used to quantize the weight are
exactly the (scale, zero_point) pair reported by the weight observer's
calculate_qparams: the zero_point is passed through unchanged — it is not
forced to 0, and equals 0 only when the observer reports 0.  The weight
quantization is the first quantize_linear call performed. -/
theorem c4_weight_qparams_from_observer {α : Type} (B : Backend α)
    (f : FuseFn) (mod : FloatConv2d) (wObs actObs : Observer) :
    (mod.weight_fake_quant = none → mod.modType = .floatConv2d →
      mod.qconfig_weight = some wObs → mod.observer = some actObs →
      wObs.dtype = .qint8 →
      firstQuant (from_float B f mod).2 =
        some (wObs.scale, wObs.zero_point, .qint8)) ∧
    (mod.weight_fake_quant = some wObs → mod.observer = some actObs →
      wObs.dtype = .qint8 →
      firstQuant (from_float B f mod).2 =
        some (wObs.scale, wObs.zero_point, .qint8)) := by
  constructor
  · intro hwfq ht hq ho hd
    rw [from_float_ptq_reduce B f mod wObs actObs hwfq ht hq ho]
    exact firstQuant_from_float_common B mod wObs actObs mod.weight mod.bias
      [.observe] hd rfl
  · intro hwfq ho hd
    rw [from_float_qat_reduce B f mod wObs actObs hwfq ho]
    exact firstQuant_from_float_common B mod wObs actObs _ _ [] hd rfl

/-- A weight observer reporting a nonzero zero_point 3 with dtype qint8. -/
def sampleObsZ3 : Observer := ⟨1, 3, .qint8⟩

/-- An activation observer reporting scale 1, zero_point 0. -/
def sampleActObs : Observer := ⟨1, 0, .quint8⟩

/-- A concrete real-valued 4-D weight. -/
def sampleFW : FTensor := ⟨[1, 1, 1, 1], fun _ => 0⟩

/-- A concrete calibrated float module on the post-training path whose
weight observer reports zero_point 3. -/
def sampleFloatMod : FloatConv2d :=
  { modType := .floatConv2d, in_channels := 1, out_channels := 1
    kernel_size := (1, 1), stride := (1, 1), padding := (0, 0)
    dilation := (1, 1), groups := 1, padding_mode := "zeros"
    weight := sampleFW, bias := none, observer := some sampleActObs
    qconfig_weight := some sampleObsZ3, weight_fake_quant := none
    running_mean := ⟨1, fun _ => 0⟩, running_var := ⟨1, fun _ => 1⟩
    eps := 0, gamma := ⟨1, fun _ => 1⟩, beta := ⟨1, fun _ => 0⟩ }

/-- A trivial stand-in for the external fuse function. -/
def sampleFuse : FuseFn := fun w b _ _ _ _ _ => (w, b)

/-- Counterexample for C4: on a module whose weight observer reports
zero_point 3, from_float quantizes the weight with zero_point 3, not 0 —
the claim that the weight zero_point is 0 regardless of the observer's
report is false. -/
theorem c4_counterexample :
    firstQuant (from_float idBackend sampleFuse sampleFloatMod).2 =
      some (1, 3, .qint8) ∧ (3 : ℤ) ≠ 0 :=
  ⟨rfl, by decide⟩

/-- Witness for C4 (amended): on the concrete module the first quantize
call uses exactly the observer's reported (scale, zero_point) = (1, 3). -/
theorem c4_witness :
    firstQuant (from_float idBackend sampleFuse sampleFloatMod).2 =
      some (sampleObsZ3.scale, sampleObsZ3.zero_point, .qint8) :=
  (c4_weight_qparams_from_observer idBackend sampleFuse sampleFloatMod
    sampleObsZ3 sampleActObs).1 rfl rfl rfl rfl rfl

/-- C5: for every float module accepted by from_float (either path), a
present bias is quantized and stored with scale exactly
activation_scale / 2^16, zero_point 0, and 32-bit signed dtype; an absent
bias leaves the quantized module's bias absent.  On the training-time path
the bias in question is the (possibly batch-norm-fused) bias entering the
shared conversion tail. -/
theorem c5_bias_reference_scale {α : Type} (B : Backend α) (f : FuseFn)
    (mod : FloatConv2d) (wObs actObs : Observer)
    (hd : wObs.dtype = .qint8) (hpm : mod.padding_mode = "zeros")
    (hin : mod.in_channels % mod.groups = 0)
    (hout : mod.out_channels % mod.groups = 0) :
    (∀ fb, mod.weight_fake_quant = none → mod.modType = .floatConv2d →
      mod.qconfig_weight = some wObs → mod.observer = some actObs →
      mod.bias = some fb →
      Except.map (fun qc => qc.bias) (from_float B f mod).1 =
          .ok (some (quantize_linear1 fb (actObs.scale / 2 ^ 16) 0 .qint32)) ∧
      (quantize_linear1 fb (actObs.scale / 2 ^ 16) 0 .qint32).scale =
          actObs.scale / 2 ^ 16 ∧
      (quantize_linear1 fb (actObs.scale / 2 ^ 16) 0 .qint32).zero_point = 0 ∧
      (quantize_linear1 fb (actObs.scale / 2 ^ 16) 0 .qint32).dtype = .qint32) ∧
    (mod.weight_fake_quant = none → mod.modType = .floatConv2d →
      mod.qconfig_weight = some wObs → mod.observer = some actObs →
      mod.bias = none →
      Except.map (fun qc => qc.bias) (from_float B f mod).1 = .ok none) ∧
    (∀ w' fb, mod.weight_fake_quant = some wObs → mod.observer = some actObs →
      (if mod.modType = .convBn2d then
        f mod.weight mod.bias mod.running_mean mod.running_var mod.eps
          mod.gamma mod.beta
       else (mod.weight, mod.bias)) = (w', some fb) →
      Except.map (fun qc => qc.bias) (from_float B f mod).1 =
        .ok (some (quantize_linear1 fb (actObs.scale / 2 ^ 16) 0 .qint32))) ∧
    (∀ w', mod.weight_fake_quant = some wObs → mod.observer = some actObs →
      (if mod.modType = .convBn2d then
        f mod.weight mod.bias mod.running_mean mod.running_var mod.eps
          mod.gamma mod.beta
       else (mod.weight, mod.bias)) = (w', none) →
      Except.map (fun qc => qc.bias) (from_float B f mod).1 = .ok none) := by
  refine ⟨fun fb hwfq ht hq ho hb => ?_, fun hwfq ht hq ho hb => ?_,
    fun w' fb hwfq ho hwb => ?_, fun w' hwfq ho hwb => ?_⟩
  · rw [from_float_ptq_reduce B f mod wObs actObs hwfq ht hq ho, hb,
      from_float_common_some_eq B mod wObs actObs mod.weight fb [.observe]
        hd hpm hin hout]
    exact ⟨rfl, rfl, rfl, rfl⟩
  · rw [from_float_ptq_reduce B f mod wObs actObs hwfq ht hq ho, hb,
      from_float_common_none_eq B mod wObs actObs mod.weight [.observe]
        hd hpm hin hout]
    rfl
  · rw [from_float_qat_reduce B f mod wObs actObs hwfq ho]
    simp only [hwb]
    rw [from_float_common_some_eq B mod wObs actObs w' fb [] hd hpm hin hout]
    rfl
  · rw [from_float_qat_reduce B f mod wObs actObs hwfq ho]
    simp only [hwb]
    rw [from_float_common_none_eq B mod wObs actObs w' [] hd hpm hin hout]
    rfl

/-- A concrete real-valued bias. -/
def sampleFB : FTensor1 := ⟨1, fun _ => 1⟩

/-- The concrete float module with a bias attached. -/
def sampleFloatModB : FloatConv2d := { sampleFloatMod with bias := some sampleFB }

/-- Witness for C5: converting the concrete module stores its bias
quantized with scale activation_scale / 2^16 and zero_point 0. -/
theorem c5_witness :
    Except.map (fun qc => qc.bias)
        (from_float idBackend sampleFuse sampleFloatModB).1 =
      .ok (some (quantize_linear1 sampleFB (sampleActObs.scale / 2 ^ 16) 0 .qint32)) ∧
    (quantize_linear1 sampleFB (sampleActObs.scale / 2 ^ 16) 0 .qint32).zero_point = 0 :=
  let h := (c5_bias_reference_scale idBackend sampleFuse sampleFloatModB
    sampleObsZ3 sampleActObs rfl rfl rfl rfl).1 sampleFB rfl rfl rfl rfl rfl
  ⟨h.1, h.2.2.1⟩

/-- C7: from_float on a module whose weight observer is configured with a
dtype other than signed 8-bit fails with the unsupported-dtype error before
any tensor is quantized and before any quantized module is constructed: the
event trace contains no quantize call, no allocation and no construction —
at most the observer run over the raw weight on the post-training path. -/
theorem c7_from_float_dtype_gate {α : Type} (B : Backend α) (f : FuseFn)
    (mod : FloatConv2d) (wObs actObs : Observer) (hd : wObs.dtype ≠ .qint8) :
    (mod.weight_fake_quant = none → mod.modType = .floatConv2d →
      mod.qconfig_weight = some wObs → mod.observer = some actObs →
      from_float B f mod = (.error .unsupportedDtype, [.observe])) ∧
    (mod.weight_fake_quant = some wObs → mod.observer = some actObs →
      from_float B f mod = (.error .unsupportedDtype, [])) := by
  constructor
  · intro hwfq ht hq ho
    rw [from_float_ptq_reduce B f mod wObs actObs hwfq ht hq ho]
    exact from_float_common_gate B mod wObs actObs mod.weight mod.bias
      [.observe] hd
  · intro hwfq ho
    rw [from_float_qat_reduce B f mod wObs actObs hwfq ho]
    exact from_float_common_gate B mod wObs actObs _ _ [] hd

/-- A weight observer configured for an unsigned 8-bit dtype. -/
def sampleObsU8 : Observer := ⟨1, 0, .quint8⟩

/-- The concrete float module with an unsigned-8-bit weight observer. -/
def sampleFloatModU8 : FloatConv2d :=
  { sampleFloatMod with qconfig_weight := some sampleObsU8 }

/-- Witness for C7: converting a module whose weight observer is configured
for quint8 fails with the unsupported-dtype error, with only the observer
run recorded. -/
theorem c7_witness :
    from_float idBackend sampleFuse sampleFloatModU8 =
      (.error .unsupportedDtype, [.observe]) :=
  (c7_from_float_dtype_gate idBackend sampleFuse sampleFloatModU8 sampleObsU8
    sampleActObs (by decide)).1 rfl rfl rfl rfl

end QConv
